import Mathlib

/-!
Shallow embedding of the WebsiteDownloader_python repository
(`src/utils/parser.py`, `src/utils/file_manager.py`, `src/core/engine.py`,
`src/app.py`) together with theorems checking the repository's
natural-language specification against the code.

Strings are modelled as Lean `String` / `List Char`; the regular expressions
compiled in `LogParser.__init__` are embedded as executable search functions
with the same matching semantics; the filesystem is modelled as a list of
entries keyed by canonical (resolved) paths, with symlink/`..` resolution
given by an explicit `resolve` parameter.
-/

namespace WebsiteDownloader

/-! ### String primitives shared by the parser model -/

/-- The whitespace characters stripped by Python's `str.strip()` (ASCII part). -/
def isPyWhitespace (c : Char) : Bool :=
  c = ' ' || c = '\t' || c = '\n' || c = '\r' || c = '\x0b' || c = '\x0c'

/-- Python `line.strip()`: remove leading and trailing whitespace. -/
def pyStrip (s : String) : String :=
  ⟨((s.data.dropWhile isPyWhitespace).reverse.dropWhile isPyWhitespace).reverse⟩

/-- Consume the literal `pat` from the front of `cs`; return the rest on success. -/
def matchLit : List Char → List Char → Option (List Char)
  | [], cs => some cs
  | _ :: _, [] => none
  | l :: ls, c :: cs => if c = l then matchLit ls cs else none

/-- Consume the literal `pat` (given lowercase) case-insensitively (`re.IGNORECASE`). -/
def matchLitCI : List Char → List Char → Option (List Char)
  | [], cs => some cs
  | _ :: _, [] => none
  | l :: ls, c :: cs => if c.toLower = l then matchLitCI ls cs else none

/-- Drop a maximal run of decimal digits. -/
def dropDigits : List Char → List Char
  | [] => []
  | c :: cs => if c.isDigit then dropDigits cs else c :: cs

/-- Consume `\d+` (at least one digit, maximal run); return the rest. -/
def matchDigits1 : List Char → Option (List Char)
  | [] => none
  | c :: cs => if c.isDigit then some (dropDigits cs) else none

/-- Does `cs` start with the literal `pat` (Python `str.startswith`)? -/
def startsWithL (pat cs : List Char) : Bool :=
  (matchLit pat cs).isSome

/-- Does `cs` contain `pat` as a substring (Python `in`)? -/
def containsSub (pat : List Char) : List Char → Bool
  | [] => (matchLit pat []).isSome
  | c :: cs => (matchLit pat (c :: cs)).isSome || containsSub pat cs

/-! ### The compiled patterns of `LogParser.__init__` (src/utils/parser.py:17-21) -/

/-- Match `’ saved \[\d+/\d+\]` at the front of `cs`
(the closing part of `saved_pattern` after the `.+` middle). -/
def matchSavedClose (cs : List Char) : Bool :=
  match matchLit "’ saved [".data cs with
  | none => false
  | some r1 =>
    match matchDigits1 r1 with
    | none => false
    | some r2 =>
      match matchLit "/".data r2 with
      | none => false
      | some r3 =>
        match matchDigits1 r3 with
        | none => false
        | some r4 => (matchLit "]".data r4).isSome

/-- After an opening `‘`, match `.+’ saved \[\d+/\d+\]`: consume one or more
non-newline characters, then the closing part. -/
def savedMid : List Char → Bool
  | [] => false
  | c :: cs => c ≠ '\n' && (matchSavedClose cs || savedMid cs)

/-- `re.search` of `saved_pattern = ‘.+’ saved \[\d+/\d+\]` over the line. -/
def savedSearch : List Char → Bool
  | [] => false
  | c :: cs => (c = '‘' && savedMid cs) || savedSearch cs

/-- Match one alternative of `error_pattern = (ERROR \d+|failed:|Not Found)`,
case-insensitively, at the front of `cs`. -/
def matchErrorAt (cs : List Char) : Bool :=
  (match matchLitCI "error ".data cs with
   | some r => (matchDigits1 r).isSome
   | none => false)
  || (matchLitCI "failed:".data cs).isSome
  || (matchLitCI "not found".data cs).isSome

/-- `re.search` of `error_pattern` over the line. -/
def errorSearch : List Char → Bool
  | [] => false
  | c :: cs => matchErrorAt (c :: cs) || errorSearch cs

/-! ### `LogParser` state and operations (src/utils/parser.py) -/

/-- The mutable counters of a `LogParser` instance. -/
structure ParserState where
  downloaded_count : Nat
  error_count : Nat
deriving DecidableEq, Repr

/-- The stats dictionary `{'files': ..., 'errors': ...}`. -/
structure Stats where
  files : Nat
  errors : Nat
deriving DecidableEq, Repr

/-- `LogParser._get_stats` (src/utils/parser.py:84-88). -/
def _get_stats (st : ParserState) : Stats :=
  ⟨st.downloaded_count, st.error_count⟩

/-- Split a character list at every occurrence of `sep`
(Python `str.split(sep)`: `n` separators yield `n+1` pieces). -/
def splitOnChar (sep : Char) : List Char → List (List Char)
  | [] => [[]]
  | c :: cs =>
    match splitOnChar sep cs with
    | [] => [[]]
    | p :: ps => if c = sep then [] :: p :: ps else (c :: p) :: ps

/-- `LogParser._extract_filename` (src/utils/parser.py:70-82): find the first
`‘` and the first `’`, return the last `/`-segment of the text between them,
or the placeholder `"file"` when either delimiter is absent. -/
def _extract_filename (line : String) : String :=
  let cs := line.data
  match cs.findIdx? (· = '‘'), cs.findIdx? (· = '’') with
  | some s, some e =>
    let full_path := (cs.drop (s + 1)).take (e - (s + 1))
    ⟨(splitOnChar '/' full_path).getLastD []⟩
  | some _, none => "file"
  | none, _ => "file"

/-- `LogParser.process_line` (src/utils/parser.py:23-68). Returns the display
line, the stats snapshot taken after any counter mutation, and the new state. -/
def process_line (st : ParserState) (raw : String) : String × Stats × ParserState :=
  let line := pyStrip raw
  let cs := line.data
  if cs.isEmpty then ("", _get_stats st, st)
  else if savedSearch cs then
    let st' : ParserState := ⟨st.downloaded_count + 1, st.error_count⟩
    ("✅ FILE SAVED: " ++ _extract_filename line ++ "\n", _get_stats st', st')
  else if errorSearch cs then
    let st' : ParserState := ⟨st.downloaded_count, st.error_count + 1⟩
    ("❌ ERROR: " ++ line ++ "\n", _get_stats st', st')
  else if startsWithL "Resolving ".data cs then
    ("🔄 " ++ line ++ "\n", _get_stats st, st)
  else if startsWithL "Connecting to ".data cs then
    ("🔗 " ++ line ++ "\n", _get_stats st, st)
  else if containsSub "200 OK".data cs then
    ("⬇️  Response: 200 OK\n", _get_stats st, st)
  else if startsWithL "Saving to:".data cs then
    ("💾 Saving: " ++ _extract_filename line ++ "...\n", _get_stats st, st)
  else
    ("   " ++ line ++ "\n", _get_stats st, st)

/-- `LogParser.reset` (src/utils/parser.py:90-93). -/
def reset (_ : ParserState) : ParserState := ⟨0, 0⟩

/-- Run `process_line` over a sequence of raw lines, keeping only the state. -/
def runLines (st : ParserState) (lines : List String) : ParserState :=
  lines.foldl (fun s l => (process_line s l).2.2) st

/-! ### Filesystem model for `FileManager` (src/utils/file_manager.py)

A canonical (fully resolved) absolute path is a list of segments; symlink and
`..` resolution performed by `Path.resolve()` / the OS is an explicit
`resolve` function from raw paths to canonical ones.  The filesystem is a
list of entries at canonical paths. -/

/-- A path as a list of segments (root = `[]`). -/
abbrev CPath := List String

/-- Kind of a filesystem node. -/
inductive NodeKind
  | file
  | dir
deriving DecidableEq, Repr

/-- One filesystem entry at a canonical path. -/
structure Entry where
  path : CPath
  kind : NodeKind
deriving DecidableEq, Repr

/-- The filesystem: the set of existing nodes, keyed by canonical path. -/
abbrev FS := List Entry

/-- `os.path.exists` / `Path.exists` at a canonical path. -/
def pathExists (fs : FS) (p : CPath) : Bool :=
  fs.any (fun e => e.path == p)

/-- `Path.is_dir` at a canonical path. -/
def isDirAt (fs : FS) (p : CPath) : Bool :=
  fs.any (fun e => e.path == p && e.kind == NodeKind.dir)

/-- `shutil.rmtree p`: remove the node at `p` and everything below it. -/
def rmtree (fs : FS) (p : CPath) : FS :=
  fs.filter (fun e => ! p.isPrefixOf e.path)

/-- `a in b.parents` for resolved `pathlib` paths: `a` is a proper ancestor
of `b`, i.e. a strictly shorter prefix of its segment list. -/
def isProperAncestor (a b : CPath) : Bool :=
  a.isPrefixOf b && decide (a.length < b.length)

/-- Result of `FileManager.clear_temp_folder`: the new filesystem, whether a
security warning was logged, and whether a tree was removed. -/
structure ClearResult where
  fs : FS
  securityWarning : Bool
  removed : Bool
deriving DecidableEq, Repr

/-- `FileManager.clear_temp_folder` (src/utils/file_manager.py:63-79):
if the resolved temp dir is a proper ancestor of the resolved path (`
self.temp_dir.resolve() in path.resolve().parents`), recursively delete the
directory when it exists; otherwise log a security warning and do nothing.
The whole body is wrapped in `try/except`, so it never raises. -/
def clear_temp_folder (resolve : CPath → CPath) (tempDir : CPath) (fs : FS)
    (p : CPath) : ClearResult :=
  let rp := resolve p
  if isProperAncestor (resolve tempDir) rp then
    if pathExists fs rp && isDirAt fs rp then ⟨rmtree fs rp, false, true⟩
    else ⟨fs, false, false⟩
  else ⟨fs, true, false⟩

/-! ### Retention sweep `FileManager.cleanup_old_files` (src/utils/file_manager.py:30-61) -/

/-- A file in the output (`output_zips`) directory: its name and its
`st_mtime` in seconds. -/
structure ZFile where
  name : String
  mtime : Int
deriving DecidableEq, Repr

/-- `glob("*.zip")` membership: the name ends with `.zip`. -/
def isZipName (n : String) : Bool :=
  ".zip".data.isSuffixOf n.data

/-- `FileManager.cleanup_old_files`: walk the zip directory's listing; every
`*.zip` file whose age `now - mtime` exceeds `max_age_minutes * 60` seconds is
unlinked; a deletion failure (`deleteFails f = true`) is caught by the inner
`try/except`, leaves the file in place, and the sweep continues with the
remaining files. Returns the directory contents after the sweep. -/
def cleanup_old_files (now : Int) (max_age_minutes : Int)
    (deleteFails : ZFile → Bool) : List ZFile → List ZFile
  | [] => []
  | f :: fs =>
    if isZipName f.name && decide (now - f.mtime > max_age_minutes * 60)
        && ! deleteFails f then
      cleanup_old_files now max_age_minutes deleteFails fs
    else
      f :: cleanup_old_files now max_age_minutes deleteFails fs

/-! ### `WgetEngine` (src/core/engine.py) -/

/-- A spawned process handle; `exitCode` is what `poll()` reports:
`none` while the process is still running. -/
structure ProcHandle where
  exitCode : Option Int
deriving DecidableEq, Repr

/-- The fields of `WgetEngine` relevant to `stop`. -/
structure EngineState where
  process : Option ProcHandle
deriving DecidableEq, Repr

/-- Observable side effects of `WgetEngine.stop`. -/
inductive StopAction
  | terminate
  | kill
  | cleanup
deriving DecidableEq, Repr

/-- `WgetEngine.stop` (src/core/engine.py:98-108): only when a process handle
exists and `poll()` is `None` does it terminate (escalating to `kill` when the
2-second grace period expires, modelled by `exitsInGrace`), then clears the
handle and runs `cleanup_partial_files`; otherwise it does nothing. -/
def stop (exitsInGrace : Bool) (st : EngineState) : EngineState × List StopAction :=
  match st.process with
  | none => (st, [])
  | some p =>
    match p.exitCode with
    | some _ => (st, [])
    | none =>
      (⟨none⟩,
        (if exitsInGrace then [StopAction.terminate]
         else [StopAction.terminate, StopAction.kill]) ++ [StopAction.cleanup])

/-- Terminal outcome of one `WgetEngine.download` run. -/
inductive DownloadOutcome
  | Completed (dir : CPath)
  | Failed
deriving DecidableEq, Repr

/-- The end-of-stream result handling of `WgetEngine.download`
(src/core/engine.py:83-96) together with `cleanup_partial_files`
(src/core/engine.py:110-113): after the output stream is exhausted, if
`return_code == 0` and `os.path.exists(self.current_website_dir)`, the run
completes and yields the target directory; otherwise it fails and
`cleanup_partial_files` clears the partial directory via
`FileManager.clear_temp_folder`. -/
def finish_download (resolve : CPath → CPath) (tempDir target : CPath)
    (returnCode : Int) (fs : FS) : DownloadOutcome × FS :=
  if returnCode == 0 && pathExists fs (resolve target) then
    (DownloadOutcome.Completed target, fs)
  else
    (DownloadOutcome.Failed, (clear_temp_folder resolve tempDir fs target).fs)

/-! ### `process_download` input validation (src/app.py:18-29) -/

/-- The URL check in `process_download` (src/app.py:22):
`if not url.startswith("http")`. -/
def url_validated (url : String) : Bool :=
  startsWithL "http".data url.data

/-- The entry of `process_download`: on a URL failing the check, yield the
error message and return before any filesystem or parser activity; otherwise
proceed (the rest of the run is modelled separately). Returns the rejection
message (if any), the untouched filesystem and parser state. -/
def process_download_entry (url : String) (fs : FS) (st : ParserState) :
    Option String × FS × ParserState :=
  if url_validated url then (none, fs, st)
  else (some "❌ Error: Please enter a valid URL (http/https).", fs, st)

/-! ### Helper lemmas about `process_line` -/

/-- One `process_line` call leaves the counters unchanged, or increments
exactly `downloaded_count`, or increments exactly `error_count`. -/
theorem process_line_state_cases (st : ParserState) (raw : String) :
    (process_line st raw).2.2 = st
  ∨ (process_line st raw).2.2 = ⟨st.downloaded_count + 1, st.error_count⟩
  ∨ (process_line st raw).2.2 = ⟨st.downloaded_count, st.error_count + 1⟩ := by
  simp only [process_line]
  repeat' split
  all_goals first
    | exact Or.inl rfl
    | exact Or.inr (Or.inl rfl)
    | exact Or.inr (Or.inr rfl)

/-- The stats snapshot returned by `process_line` is `_get_stats` of the
state returned by the same call. -/
theorem process_line_snapshot_eq (st : ParserState) (raw : String) :
    (process_line st raw).2.1 = _get_stats (process_line st raw).2.2 := by
  simp only [process_line]
  repeat' split
  all_goals rfl

/-- Single-step monotonicity of both counters. -/
theorem process_line_mono (st : ParserState) (raw : String) :
    st.downloaded_count ≤ (process_line st raw).2.2.downloaded_count ∧
    st.error_count ≤ (process_line st raw).2.2.error_count := by
  rcases process_line_state_cases st raw with h | h | h <;>
    rw [h] <;> exact ⟨by simp, by simp⟩

/-- Monotonicity of both counters over a whole sequence of lines. -/
theorem runLines_mono (st : ParserState) (lines : List String) :
    st.downloaded_count ≤ (runLines st lines).downloaded_count ∧
    st.error_count ≤ (runLines st lines).error_count := by
  induction lines generalizing st with
  | nil => exact ⟨le_refl _, le_refl _⟩
  | cons l ls ih =>
    have h1 := process_line_mono st l
    have h2 := ih ((process_line st l).2.2)
    exact ⟨h1.1.trans h2.1, h1.2.trans h2.2⟩

/-! ### Claim theorems -/

/-- C8: the counters `downloaded_count` (filesSaved) and `error_count`
(errorsSeen) are monotonically non-decreasing under every single
`process_line` call and across every sequence of calls on one instance,
and `reset` is what sets them back to zero. -/
theorem counters_monotone (st : ParserState) (raw : String) (lines : List String) :
    (st.downloaded_count ≤ (process_line st raw).2.2.downloaded_count
      ∧ st.error_count ≤ (process_line st raw).2.2.error_count)
  ∧ (st.downloaded_count ≤ (runLines st lines).downloaded_count
      ∧ st.error_count ≤ (runLines st lines).error_count)
  ∧ ((reset st).downloaded_count = 0 ∧ (reset st).error_count = 0) :=
  ⟨process_line_mono st raw, runLines_mono st lines, rfl, rfl⟩

/-- C9: `process_line` is a pure function of the pair (line, prior counters):
two invocations on the same line from states with equal counters produce the
identical display text, the identical stats snapshot, and the identical
counter deltas. -/
theorem process_line_pure (s1 s2 : ParserState) (raw : String)
    (hd : s1.downloaded_count = s2.downloaded_count)
    (he : s1.error_count = s2.error_count) :
    (process_line s1 raw).1 = (process_line s2 raw).1
  ∧ (process_line s1 raw).2.1 = (process_line s2 raw).2.1
  ∧ (process_line s1 raw).2.2.downloaded_count - s1.downloaded_count
      = (process_line s2 raw).2.2.downloaded_count - s2.downloaded_count
  ∧ (process_line s1 raw).2.2.error_count - s1.error_count
      = (process_line s2 raw).2.2.error_count - s2.error_count := by
  have hs : s1 = s2 := by
    cases s1; cases s2
    simp only at hd he
    rw [hd, he]
  subst hs
  exact ⟨rfl, rfl, rfl, rfl⟩

/-- Witness for C9 at a concrete error line and concrete equal states. -/
theorem process_line_pure_witness :
    (process_line ⟨1, 2⟩ "404 Not Found").1 = (process_line ⟨1, 2⟩ "404 Not Found").1
  ∧ (process_line ⟨1, 2⟩ "404 Not Found").2.1 = (process_line ⟨1, 2⟩ "404 Not Found").2.1
  ∧ (process_line ⟨1, 2⟩ "404 Not Found").2.2.downloaded_count - 1
      = (process_line ⟨1, 2⟩ "404 Not Found").2.2.downloaded_count - 1
  ∧ (process_line ⟨1, 2⟩ "404 Not Found").2.2.error_count - 2
      = (process_line ⟨1, 2⟩ "404 Not Found").2.2.error_count - 2 :=
  process_line_pure ⟨1, 2⟩ ⟨1, 2⟩ "404 Not Found" rfl rfl

/-- C10: the stats snapshot returned by `process_line` reflects the counters
after the current line was classified: it equals `_get_stats` of the returned
state; on a line matching the file-saved pattern `files` is the prior count
plus one; on a line matching an error marker (and not the saved pattern)
`errors` is the prior count plus one; on every other line (blank included)
the snapshot equals the unchanged prior counters. -/
theorem snapshot_post_line (st : ParserState) (raw : String) :
    (process_line st raw).2.1 = _get_stats (process_line st raw).2.2
  ∧ (savedSearch (pyStrip raw).data = true →
      (process_line st raw).2.1 = ⟨st.downloaded_count + 1, st.error_count⟩)
  ∧ (savedSearch (pyStrip raw).data = false →
      errorSearch (pyStrip raw).data = true →
      (process_line st raw).2.1 = ⟨st.downloaded_count, st.error_count + 1⟩)
  ∧ (savedSearch (pyStrip raw).data = false →
      errorSearch (pyStrip raw).data = false →
      (process_line st raw).2.1 = _get_stats st) := by
  refine ⟨process_line_snapshot_eq st raw, ?_, ?_, ?_⟩
  · intro hsv
    have hne : (pyStrip raw).data.isEmpty = false := by
      cases h : (pyStrip raw).data with
      | nil => rw [h] at hsv; exact absurd hsv (by simp [savedSearch])
      | cons c cs => simp
    simp only [process_line, hne, hsv]
    rfl
  · intro hsv herr
    have hne : (pyStrip raw).data.isEmpty = false := by
      cases h : (pyStrip raw).data with
      | nil => rw [h] at herr; exact absurd herr (by simp [errorSearch])
      | cons c cs => simp
    simp only [process_line, hne, hsv, herr]
    rfl
  · intro hsv herr
    by_cases hne : (pyStrip raw).data.isEmpty
    · simp only [process_line, hne]
      rfl
    · simp only [process_line, eq_false_of_ne_true hne, hsv, herr]
      repeat' split
      all_goals rfl

/-- Witness for C10: a saved line, an error line and an inert line, from
concrete prior counters. -/
theorem snapshot_post_line_witness :
    (process_line ⟨3, 5⟩ "‘a/b’ saved [7/7]").2.1 = ⟨4, 5⟩
  ∧ (process_line ⟨3, 5⟩ "404 Not Found").2.1 = ⟨3, 6⟩
  ∧ (process_line ⟨3, 5⟩ "hello").2.1 = ⟨3, 5⟩ :=
  ⟨(snapshot_post_line ⟨3, 5⟩ "‘a/b’ saved [7/7]").2.1 (by decide),
   (snapshot_post_line ⟨3, 5⟩ "404 Not Found").2.2.1 (by decide) (by decide),
   (snapshot_post_line ⟨3, 5⟩ "hello").2.2.2 (by decide) (by decide)⟩

/-- C4: for every non-blank input line, classification by `process_line` is
first-match-wins in the fixed priority FileSaved, then ErrorDetected, then the
informational prefixes, then Raw: a line matching the saved pattern (whether
or not it also matches an error marker) is FileSaved and increments only
`downloaded_count`; a line matching an error marker but not the saved pattern
increments only `error_count`; no other line changes a counter; and at most
one counter changes per line. -/
theorem classification_priority (st : ParserState) (raw : String)
    (hnb : (pyStrip raw).data.isEmpty = false) :
    (savedSearch (pyStrip raw).data = true →
        (process_line st raw).1
          = "✅ FILE SAVED: " ++ _extract_filename (pyStrip raw) ++ "\n"
      ∧ (process_line st raw).2.2 = ⟨st.downloaded_count + 1, st.error_count⟩)
  ∧ (savedSearch (pyStrip raw).data = false →
      errorSearch (pyStrip raw).data = true →
        (process_line st raw).1 = "❌ ERROR: " ++ pyStrip raw ++ "\n"
      ∧ (process_line st raw).2.2 = ⟨st.downloaded_count, st.error_count + 1⟩)
  ∧ (savedSearch (pyStrip raw).data = false →
      errorSearch (pyStrip raw).data = false →
      (process_line st raw).2.2 = st)
  ∧ (savedSearch (pyStrip raw).data = false →
      errorSearch (pyStrip raw).data = false →
      startsWithL "Resolving ".data (pyStrip raw).data = true →
      (process_line st raw).1 = "🔄 " ++ pyStrip raw ++ "\n")
  ∧ (savedSearch (pyStrip raw).data = false →
      errorSearch (pyStrip raw).data = false →
      startsWithL "Resolving ".data (pyStrip raw).data = false →
      startsWithL "Connecting to ".data (pyStrip raw).data = true →
      (process_line st raw).1 = "🔗 " ++ pyStrip raw ++ "\n")
  ∧ (savedSearch (pyStrip raw).data = false →
      errorSearch (pyStrip raw).data = false →
      startsWithL "Resolving ".data (pyStrip raw).data = false →
      startsWithL "Connecting to ".data (pyStrip raw).data = false →
      containsSub "200 OK".data (pyStrip raw).data = true →
      (process_line st raw).1 = "⬇️  Response: 200 OK\n")
  ∧ (savedSearch (pyStrip raw).data = false →
      errorSearch (pyStrip raw).data = false →
      startsWithL "Resolving ".data (pyStrip raw).data = false →
      startsWithL "Connecting to ".data (pyStrip raw).data = false →
      containsSub "200 OK".data (pyStrip raw).data = false →
      startsWithL "Saving to:".data (pyStrip raw).data = true →
      (process_line st raw).1 = "💾 Saving: " ++ _extract_filename (pyStrip raw) ++ "...\n")
  ∧ (savedSearch (pyStrip raw).data = false →
      errorSearch (pyStrip raw).data = false →
      startsWithL "Resolving ".data (pyStrip raw).data = false →
      startsWithL "Connecting to ".data (pyStrip raw).data = false →
      containsSub "200 OK".data (pyStrip raw).data = false →
      startsWithL "Saving to:".data (pyStrip raw).data = false →
      (process_line st raw).1 = "   " ++ pyStrip raw ++ "\n")
  ∧ (process_line st raw).2.2.downloaded_count + (process_line st raw).2.2.error_count
      ≤ st.downloaded_count + st.error_count + 1 := by
  refine ⟨?_, ?_, ?_, ?_, ?_, ?_, ?_, ?_, ?_⟩
  · intro h1
    simp only [process_line, hnb, h1]
    exact ⟨rfl, rfl⟩
  · intro h1 h2
    simp only [process_line, hnb, h1, h2]
    exact ⟨rfl, rfl⟩
  · intro h1 h2
    simp only [process_line, hnb, h1, h2]
    repeat' split
    all_goals rfl
  · intro h1 h2 h3
    simp only [process_line, hnb, h1, h2, h3]
    rfl
  · intro h1 h2 h3 h4
    simp only [process_line, hnb, h1, h2, h3, h4]
    rfl
  · intro h1 h2 h3 h4 h5
    simp only [process_line, hnb, h1, h2, h3, h4, h5]
    rfl
  · intro h1 h2 h3 h4 h5 h6
    simp only [process_line, hnb, h1, h2, h3, h4, h5, h6]
    rfl
  · intro h1 h2 h3 h4 h5 h6
    simp only [process_line, hnb, h1, h2, h3, h4, h5, h6]
    rfl
  · rcases process_line_state_cases st raw with h | h | h <;> rw [h] <;> simp <;> omega

/-- Witness for C4: a line matching both the saved pattern and an error
marker is classified FileSaved and only `downloaded_count` changes; a line
matching only an error marker increments only `error_count`. -/
theorem classification_priority_witness :
    errorSearch (pyStrip "‘a/b’ saved [1/2] failed: x").data = true
  ∧ (process_line ⟨3, 4⟩ "‘a/b’ saved [1/2] failed: x").1
      = "✅ FILE SAVED: " ++ _extract_filename (pyStrip "‘a/b’ saved [1/2] failed: x") ++ "\n"
  ∧ (process_line ⟨3, 4⟩ "‘a/b’ saved [1/2] failed: x").2.2 = ⟨4, 4⟩
  ∧ (process_line ⟨3, 4⟩ "404 Not Found").1 = "❌ ERROR: " ++ pyStrip "404 Not Found" ++ "\n"
  ∧ (process_line ⟨3, 4⟩ "404 Not Found").2.2 = ⟨3, 5⟩ :=
  ⟨by decide,
   ((classification_priority ⟨3, 4⟩ "‘a/b’ saved [1/2] failed: x" (by decide)).1 (by decide)).1,
   ((classification_priority ⟨3, 4⟩ "‘a/b’ saved [1/2] failed: x" (by decide)).1 (by decide)).2,
   ((classification_priority ⟨3, 4⟩ "404 Not Found" (by decide)).2.1 (by decide) (by decide)).1,
   ((classification_priority ⟨3, 4⟩ "404 Not Found" (by decide)).2.1 (by decide) (by decide)).2⟩

/-- C6: filename extraction never raises (it is a total function); when both
the left `‘` and right `’` delimiters occur it returns the final
`/`-separated segment of the substring between the first occurrence of each;
when either delimiter is absent it returns the literal placeholder `"file"`. -/
theorem extract_filename_spec (line : String) :
    ((line.data.findIdx? (· = '‘') = none ∨ line.data.findIdx? (· = '’') = none) →
      _extract_filename line = "file")
  ∧ (∀ s e, line.data.findIdx? (· = '‘') = some s →
      line.data.findIdx? (· = '’') = some e →
      _extract_filename line
        = ⟨(splitOnChar '/' ((line.data.drop (s + 1)).take (e - (s + 1)))).getLastD []⟩) := by
  constructor
  · intro h
    simp only [_extract_filename]
    cases h1 : line.data.findIdx? (· = '‘') with
    | none => rfl
    | some s =>
      cases h2 : line.data.findIdx? (· = '’') with
      | none => rfl
      | some e =>
        rcases h with h | h
        · rw [h1] at h; cases h
        · rw [h2] at h; cases h
  · intro s e hs he
    simp only [_extract_filename, hs, he]

/-- Witness for C6: a line with no delimiters yields `"file"`; a `Saving to:`
line yields the base filename between the delimiters. -/
theorem extract_filename_spec_witness :
    _extract_filename "abc" = "file"
  ∧ _extract_filename "Saving to: ‘./site/index.html’"
      = ⟨(splitOnChar '/' (("Saving to: ‘./site/index.html’".data.drop 12).take 17)).getLastD []⟩
  ∧ _extract_filename "Saving to: ‘./site/index.html’" = "index.html" :=
  ⟨(extract_filename_spec "abc").1 (Or.inl (by decide)),
   (extract_filename_spec "Saving to: ‘./site/index.html’").2 11 29 (by decide) (by decide),
   by decide⟩

/-- C1: for every path whose canonicalized (symlink-resolved) form does not
have the sandbox's temp directory as a proper ancestor, `clear_temp_folder`
logs a security warning, leaves the filesystem byte-for-byte unchanged and
raises no exception; the check compares resolved paths (for any resolution
function), not string prefixes. -/
theorem clear_temp_folder_outside_boundary (resolve : CPath → CPath)
    (tempDir : CPath) (fs : FS) (p : CPath)
    (h : isProperAncestor (resolve tempDir) (resolve p) = false) :
    clear_temp_folder resolve tempDir fs p = ⟨fs, true, false⟩ := by
  simp only [clear_temp_folder, h]
  rfl

/-- Witness for C1: a path that is a string-prefix extension of the temp
directory but resolves (through a symlink) outside it is refused: the
filesystem is untouched and the warning is logged. -/
theorem clear_temp_folder_outside_boundary_witness :
    List.isPrefixOf ["root", "temp_sites"] ["root", "temp_sites", "link"] = true
  ∧ isProperAncestor
      ((fun c => if c == ["root", "temp_sites", "link"] then ["outside"] else c)
        ["root", "temp_sites"])
      ((fun c => if c == ["root", "temp_sites", "link"] then ["outside"] else c)
        ["root", "temp_sites", "link"]) = false
  ∧ clear_temp_folder
      (fun c => if c == ["root", "temp_sites", "link"] then ["outside"] else c)
      ["root", "temp_sites"]
      [⟨["root", "temp_sites", "link"], NodeKind.dir⟩, ⟨["outside", "a"], NodeKind.file⟩]
      ["root", "temp_sites", "link"]
      = ⟨[⟨["root", "temp_sites", "link"], NodeKind.dir⟩, ⟨["outside", "a"], NodeKind.file⟩],
          true, false⟩ :=
  ⟨by decide, by decide,
   clear_temp_folder_outside_boundary _ _ _ _ (by decide)⟩

/-- C2: on stream exhaustion the run completes and hands the target directory
to the caller exactly when the exit code is 0 and the target exists; in every
other combination the run fails and the partial target directory is passed to
the sandbox's clear operation. -/
theorem finish_download_spec (resolve : CPath → CPath) (tempDir target : CPath)
    (returnCode : Int) (fs : FS) :
    ((finish_download resolve tempDir target returnCode fs).1
        = DownloadOutcome.Completed target
      ↔ returnCode = 0 ∧ pathExists fs (resolve target) = true)
  ∧ (returnCode = 0 → pathExists fs (resolve target) = true →
      finish_download resolve tempDir target returnCode fs
        = (DownloadOutcome.Completed target, fs))
  ∧ (¬(returnCode = 0 ∧ pathExists fs (resolve target) = true) →
      finish_download resolve tempDir target returnCode fs
        = (DownloadOutcome.Failed,
            (clear_temp_folder resolve tempDir fs target).fs)) := by
  by_cases h1 : returnCode = 0
  · by_cases h2 : pathExists fs (resolve target) = true
    · refine ⟨?_, fun _ _ => ?_, fun hc => absurd ⟨h1, h2⟩ hc⟩
      · simp [finish_download, h1, h2]
      · simp [finish_download, h1, h2]
    · refine ⟨?_, fun _ hc => absurd hc h2, fun _ => ?_⟩
      · simp only [finish_download, h1]
        simp only [Bool.eq_false_iff, ne_eq] at h2
        simp [h2]
      · simp only [finish_download, h1]
        simp only [Bool.eq_false_iff, ne_eq] at h2
        simp [h2]
  · refine ⟨?_, fun hc => absurd hc h1, fun _ => ?_⟩
    · simp [finish_download, h1]
    · simp [finish_download, h1]

/-- Witness for C2: exit code 0 with the target present completes; exit code
8 fails and clears the partial directory. -/
theorem finish_download_spec_witness :
    finish_download id ["s", "temp_sites"] ["s", "temp_sites", "d"] 0
        [⟨["s", "temp_sites", "d"], NodeKind.dir⟩]
      = (DownloadOutcome.Completed ["s", "temp_sites", "d"],
          [⟨["s", "temp_sites", "d"], NodeKind.dir⟩])
  ∧ finish_download id ["s", "temp_sites"] ["s", "temp_sites", "d"] 8
        [⟨["s", "temp_sites", "d"], NodeKind.dir⟩]
      = (DownloadOutcome.Failed,
          (clear_temp_folder id ["s", "temp_sites"]
            [⟨["s", "temp_sites", "d"], NodeKind.dir⟩] ["s", "temp_sites", "d"]).fs) :=
  ⟨(finish_download_spec id ["s", "temp_sites"] ["s", "temp_sites", "d"] 0
      [⟨["s", "temp_sites", "d"], NodeKind.dir⟩]).2.1 rfl (by decide),
   (finish_download_spec id ["s", "temp_sites"] ["s", "temp_sites", "d"] 8
      [⟨["s", "temp_sites", "d"], NodeKind.dir⟩]).2.2 (by decide)⟩

/-- C3 counterexample: the URL `"httpx"` starts with neither `http://` nor
`https://`, yet `process_download` does not reject it (the source check is
`url.startswith("http")`), so it is not "rejected before any I/O". -/
theorem url_check_counterexample :
    url_validated "httpx" = true
  ∧ startsWithL "http://".data "httpx".data = false
  ∧ startsWithL "https://".data "httpx".data = false
  ∧ process_download_entry "httpx" [] ⟨0, 0⟩ = (none, [], ⟨0, 0⟩) := by
  refine ⟨by decide, by decide, by decide, ?_⟩
  simp only [process_download_entry]
  rw [if_pos (by decide)]

/-- C3 (amended): for every input URL that does not start with the literal
prefix `http`, `process_download` rejects the input before any I/O: it
returns the invalid-URL error message and both the filesystem and the parser
counters are unchanged. -/
theorem invalid_url_rejected (url : String) (fs : FS) (st : ParserState)
    (h : startsWithL "http".data url.data = false) :
    process_download_entry url fs st
      = (some "❌ Error: Please enter a valid URL (http/https).", fs, st) := by
  simp only [process_download_entry, url_validated, h]
  rfl

/-- Witness for C3 (amended) at the concrete URL `ftp://x`. -/
theorem invalid_url_rejected_witness :
    startsWithL "http".data "ftp://x".data = false
  ∧ process_download_entry "ftp://x" [] ⟨0, 0⟩
      = (some "❌ Error: Please enter a valid URL (http/https).", [], ⟨0, 0⟩) :=
  ⟨by decide, invalid_url_rejected "ftp://x" [] ⟨0, 0⟩ (by decide)⟩

/-- C5: the retention sweep keeps a file exactly when it is not an overdue
`.zip` whose deletion succeeds (so every `.zip` archive strictly older than
`max_age_minutes` is deleted unless its deletion fails, everything else is
kept, and one failed deletion does not abort the sweep of the rest); with
archives aged 30 and 90 minutes under a 60-minute threshold exactly the
90-minute-old archive is deleted, and when the first of two overdue archives
fails to delete the second is still swept. -/
theorem cleanup_old_files_spec :
    (∀ (now maxAge : Int) (deleteFails : ZFile → Bool) (files : List ZFile) (f : ZFile),
        f ∈ cleanup_old_files now maxAge deleteFails files
      ↔ f ∈ files ∧ ¬(isZipName f.name = true ∧ now - f.mtime > maxAge * 60
              ∧ deleteFails f = false))
  ∧ cleanup_old_files 10000 60 (fun _ => false)
      [⟨"a.zip", 10000 - 1800⟩, ⟨"b.zip", 10000 - 5400⟩]
      = [⟨"a.zip", 8200⟩]
  ∧ cleanup_old_files 10000 60 (fun g => g.name == "a.zip")
      [⟨"a.zip", 10000 - 5400⟩, ⟨"b.zip", 10000 - 5400⟩]
      = [⟨"a.zip", 4600⟩] := by
  refine ⟨?_, by decide, by decide⟩
  intro now maxAge deleteFails files f
  induction files with
  | nil => simp [cleanup_old_files]
  | cons g gs ih =>
    by_cases hg : isZipName g.name && decide (now - g.mtime > maxAge * 60)
        && ! deleteFails g
    · rw [cleanup_old_files, if_pos hg]
      simp only [Bool.and_eq_true, Bool.not_eq_true', decide_eq_true_eq] at hg
      constructor
      · intro hf
        rcases (ih.mp hf) with ⟨hmem, hnot⟩
        refine ⟨List.mem_cons_of_mem g hmem, hnot⟩
      · rintro ⟨hmem, hnot⟩
        rcases List.mem_cons.mp hmem with rfl | hmem
        · exact absurd ⟨hg.1.1, hg.1.2, hg.2⟩ hnot
        · exact ih.mpr ⟨hmem, hnot⟩
    · rw [cleanup_old_files, if_neg hg]
      simp only [Bool.and_eq_true, Bool.not_eq_true', decide_eq_true_eq] at hg
      constructor
      · intro hf
        rcases List.mem_cons.mp hf with rfl | hf
        · refine ⟨List.mem_cons_self f gs, ?_⟩
          rintro ⟨h1, h2, h3⟩
          exact hg ⟨⟨h1, h2⟩, h3⟩
        · rcases ih.mp hf with ⟨hmem, hnot⟩
          exact ⟨List.mem_cons_of_mem g hmem, hnot⟩
      · rintro ⟨hmem, hnot⟩
        rcases List.mem_cons.mp hmem with rfl | hmem
        · exact List.mem_cons_self f _
        · exact List.mem_cons_of_mem g (ih.mpr ⟨hmem, hnot⟩)

/-- C7: `stop` is idempotent: when no process handle is held, or the held
process has already terminated (`poll()` returns an exit code), `stop` changes
nothing and performs no action (no signal, no cleanup, no error); and a second
`stop` after any previous `stop` is always such a no-op. -/
theorem stop_idempotent (g g1 g2 : Bool) (st : EngineState) :
    (st.process = none → stop g st = (st, []))
  ∧ (∀ p c, st.process = some p → p.exitCode = some c → stop g st = (st, []))
  ∧ stop g2 (stop g1 st).1 = ((stop g1 st).1, []) := by
  refine ⟨?_, ?_, ?_⟩
  · intro h
    simp [stop, h]
  · intro p c hp hc
    simp [stop, hp, hc]
  · rcases st with ⟨_ | ⟨_ | c⟩⟩ <;> simp [stop]

/-- Witness for C7: stopping with no handle, stopping an already-terminated
handle, and stopping twice starting from a live handle. -/
theorem stop_idempotent_witness :
    stop true ⟨none⟩ = (⟨none⟩, [])
  ∧ stop true ⟨some ⟨some 0⟩⟩ = (⟨some ⟨some 0⟩⟩, [])
  ∧ stop false (stop true ⟨some ⟨none⟩⟩).1 = ((stop true ⟨some ⟨none⟩⟩).1, []) :=
  ⟨(stop_idempotent true true true ⟨none⟩).1 rfl,
   (stop_idempotent true true true ⟨some ⟨some 0⟩⟩).2.1 ⟨some 0⟩ 0 rfl rfl,
   (stop_idempotent true true false ⟨some ⟨none⟩⟩).2.2⟩

end WebsiteDownloader
